import Mathlib

/-!
Verification of the social-login test harness and configuration of the
oauth2-article repository (`settings.py`, `test_social.py`).

The repository holds the Django/Python-Social-Auth configuration and the test
suite for a token-based social login endpoint.  The mock provider endpoint
(`respond_to`, `parse_qs`/`urlparse` based token extraction, the
`QUERY_STRINGS_RE` URL pattern) is embedded directly from `test_social.py`.
The login pipeline itself (Django view + the `social_core` pipeline configured
in `settings.py`) is not part of the repository's sources; it is modelled from
the specification, with each such definition marked `Modelled from the spec:`.
-/

namespace OAuth2Article

/-! ## URL and query-string parsing (urllib.parse semantics used by respond_to) -/

/-- Split a character list at the first occurrence of `c`: `some (before, after)`
when `c` occurs, `none` otherwise.  Models Python's `s.split(c, 1)` when it
actually splits. -/
def splitFirst (c : Char) : List Char → Option (List Char × List Char)
  | [] => none
  | x :: xs =>
    if x = c then some ([], xs)
    else (splitFirst c xs).map (fun p => (x :: p.1, p.2))

/-- Split a character list at every occurrence of `c`.  Models Python's
`s.split(c)` for a single-character separator: `splitAll c [] = [[]]`, like
`''.split(c) == ['']`. -/
def splitAll (c : Char) : List Char → List (List Char)
  | [] => [[]]
  | x :: xs =>
    if x = c then [] :: splitAll c xs
    else
      match splitAll c xs with
      | [] => [[x]]
      | y :: ys => (x :: y) :: ys

/-- The query component of a URL, as extracted by
`urllib.parse.urlparse(url).query`: the fragment is everything after the first
`#`; within what precedes it, the query is everything after the first `?`. -/
def urlQuery (url : List Char) : List Char :=
  let beforeFrag :=
    match splitFirst '#' url with
    | some p => p.1
    | none => url
  match splitFirst '?' beforeFrag with
  | some p => p.2
  | none => []

/-- `urllib.parse.parse_qs` restricted to what `respond_to` consumes: the query
is split on `&`; each field is split once at its first `=`; fields without `=`
and fields with an empty value are dropped (`keep_blank_values` defaults to
`False`).  Values are kept as an ordered association list, so the first entry
for a key is `parse_qs(...)[key][0]`.  Percent-escapes are kept verbatim; every
token the tests exchange consists of unreserved characters only. -/
def parse_qs (query : List Char) : List (List Char × List Char) :=
  (splitAll '&' query).filterMap (fun field =>
    match splitFirst '=' field with
    | some p => if p.2 = [] then none else some p
    | none => none)

/-! ## The mock provider endpoint, from test_social.py -/

/-- One entry of the `USER_INFO` fixture: the JSON body the mock provider
returns for a known-good token. -/
structure UserInfo where
  id : String
  name : String
  email : String
deriving DecidableEq, Repr

/-- The `USER_INFO` fixture of `test_social.py`: known-good access tokens
(`'user_1'`, `'user_2'`) mapped to the user-info body the mock returns. -/
def USER_INFO : List (String × UserInfo) :=
  [("user_1", ⟨"00001", "Foo Bar", "foo@bar.com"⟩),
   ("user_2", ⟨"00002", "Pooh Bear", "winnie@100acre.net"⟩)]

/-- The JSON body of a mock response: either a `USER_INFO` entry or the
`{'errors': 'Invalid Token'}` object. -/
inductive Body where
  | user (info : UserInfo)
  | errors (msg : String)
deriving DecidableEq, Repr

/-- The `(status, headers, body)` triple `respond_to` returns; the headers
dictionary in the source is always the empty `{}`. -/
structure MockResponse where
  status : Nat
  headers : List (String × String)
  body : Body
deriving DecidableEq, Repr

/-- The first value of the `access_token` query parameter of a URL:
`parse_qs(urlparse(url).query)['access_token'][0]`, `none` when the key is
absent (in which case the Python expression raises `KeyError`). -/
def accessTokenOf (url : List Char) : Option (List Char) :=
  (parse_qs (urlQuery url)).lookup ("access_token".data)

/-- `respond_to` from `test_social.py`: extract the first `access_token` value
of the request URL; status 200 with the `USER_INFO` entry when it is a key of
`USER_INFO`, status 401 with an error body otherwise.  `none` models the
uncaught `KeyError` raised when the URL carries no `access_token` parameter.
The function reads only the constant `USER_INFO` and keeps no state. -/
def respond_to (url : List Char) : Option MockResponse :=
  match accessTokenOf url with
  | none => none
  | some token =>
    match USER_INFO.lookup (String.mk token) with
    | some info => some ⟨200, [], Body.user info⟩
    | none => some ⟨401, [], Body.errors "Invalid Token"⟩

/-! ## The mock URL pattern, from test_social.py

`QUERY_STRINGS_RE` in the source is the regular-expression string
`\?([\w-]+(=[\w-]*)?(&[\w-]+(=[\w-]*)?)*)?$`, appended to the provider's
user-info endpoint URL with its dots escaped.  It is transcribed here as a
`RegularExpression Char` term; the `re.match`-at-start plus trailing `$`
semantics of the compiled pattern correspond to whole-string membership in the
expression's language. -/

open RegularExpression in
/-- A character class: matches any single character of the list. -/
def charClass (cs : List Char) : RegularExpression Char :=
  cs.foldr (fun c r => char c + r) 0

open RegularExpression in
/-- A literal string: matches exactly the given character list (the escaped
base URL portion of the compiled pattern matches itself literally). -/
def litRe (s : List Char) : RegularExpression Char :=
  s.foldr (fun c r => char c * r) 1

/-- The ASCII characters of the class `[\w-]`: letters, digits, underscore and
hyphen. -/
def wordHyphenChars : List Char :=
  "abcdefghijklmnopqrstuvwxyzABCDEFGHIJKLMNOPQRSTUVWXYZ0123456789_-".data

/-- `[\w-]` -/
def wh : RegularExpression Char := charClass wordHyphenChars

/-- `[\w-]+` -/
def whPlus : RegularExpression Char := wh * wh.star

/-- `(=[\w-]*)?` -/
def valOpt : RegularExpression Char := RegularExpression.char '=' * wh.star + 1

/-- `[\w-]+(=[\w-]*)?` : one query-string field. -/
def pairRe : RegularExpression Char := whPlus * valOpt

/-- `QUERY_STRINGS_RE` from `test_social.py`:
`\?([\w-]+(=[\w-]*)?(&[\w-]+(=[\w-]*)?)*)?$`. -/
def QUERY_STRINGS_RE : RegularExpression Char :=
  RegularExpression.char '?' * (pairRe * (RegularExpression.char '&' * pairRe).star + 1)

/-- `mock_url` of `TestFacebook` / `TestGoogle`: the dot-escaped base endpoint
URL followed by `QUERY_STRINGS_RE`. -/
def mock_url (base : List Char) : RegularExpression Char :=
  litRe base * QUERY_STRINGS_RE

/-- The Google user-info endpoint URL hardcoded in `TestGoogle` (line 206 of
`test_social.py`). -/
def googleBaseUrl : List Char :=
  "https://www.googleapis.com/plus/v1/people/me".data

/-- The query string built from a list of `key=value` pairs: `?` followed by
the `&`-separated fields. -/
def queryOfPairs (ps : List (List Char × List Char)) : List Char :=
  '?' :: List.intercalate ['&'] (ps.map (fun p => p.1 ++ '=' :: p.2))

/-! ## The login pipeline, modelled from the spec -/

/-- A local user account.  `name` stands for the mutable profile (display
name) fields the reconciler refreshes on every successful login. -/
structure UserAccount where
  username : String
  email : String
  name : String
deriving DecidableEq, Repr

/-- The local user store: the list of existing `UserAccount` rows. -/
structure Store where
  accounts : List UserAccount
deriving DecidableEq, Repr

/-- The provider identifiers enabled by `AUTHENTICATION_BACKENDS` in
`settings.py` (the names of the `GoogleOAuth2` and `FacebookOAuth2` backends,
as exercised by `TestGoogle` and `TestFacebook`). -/
def enabledProviders : List String := ["google-oauth2", "facebook"]

/-- Number of accounts in the store carrying a given email. -/
def countEmail (s : Store) (e : String) : Nat :=
  (s.accounts.filter (fun a => a.email == e)).length

/-- Modelled from the spec: `ProviderAdapter.verify` (§4.2) performs exactly
one outbound call to the provider's user-info endpoint, answered in the tests
by the mock `respond_to` from the constant `USER_INFO`; a 200 response yields
the normalized identity, a 401 yields a token-invalid failure.  The view code
is not in the repository's sources, only `settings.py` and the tests. -/
def verify (token : String) : Option UserInfo :=
  USER_INFO.lookup token

/-- Modelled from the spec: `IdentityReconciler.resolve` (§4.3) looks up an
existing account by email; when found it updates only the profile (name)
fields, otherwise it creates one account with `username` equal to the email
(`SOCIAL_AUTH_USERNAME_IS_FULL_EMAIL = True` in `settings.py`). -/
def reconcile (s : Store) (info : UserInfo) : Store :=
  if s.accounts.any (fun a => a.email == info.email) then
    ⟨s.accounts.map (fun a =>
      if a.email == info.email then ⟨a.username, a.email, info.name⟩ else a)⟩
  else
    ⟨s.accounts ++ [⟨info.email, info.email, info.name⟩]⟩

/-- Modelled from the spec: `TokenIssuer.issue` (§4.4) mints a fresh opaque
local token never equal to the externally presented one; the fresh value is
modelled deterministically by prefixing, which keeps the distinctness
guarantee. -/
def issueToken (token : String) : String := "drf-" ++ token

/-- The HTTP-visible outcome of a login request: status code and the optional
`token` field of the response body. -/
structure HttpResponse where
  status : Nat
  token : Option String
deriving DecidableEq, Repr

/-- A login request's full effect: the response, the resulting store, and the
number of outbound network calls performed. -/
structure LoginResult where
  resp : HttpResponse
  store : Store
  networkCalls : Nat
deriving DecidableEq, Repr

/-- Modelled from the spec: the `LoginOrchestrator` (§4.5, §6) behind
`POST /api/2.0/social/{provider}/`.  A provider outside the enabled set is
rejected with 404 before any network or store access; otherwise the token is
verified with one outbound call, an invalid token yields 401 with no `token`
field and an unchanged store, and a valid token reconciles the account and
returns 200 with a freshly issued local token.  The view and pipeline code is
not in the repository's sources. -/
def socialLogin (s : Store) (provider token : String) : LoginResult :=
  if enabledProviders.contains provider then
    match verify token with
    | some info => ⟨⟨200, some (issueToken token)⟩, reconcile s info, 1⟩
    | none => ⟨⟨401, none⟩, s, 1⟩
  else
    ⟨⟨404, none⟩, s, 0⟩

/-! ## Branch lemmas for the orchestrator -/

theorem socialLogin_not_enabled (s : Store) (p t : String)
    (h : enabledProviders.contains p = false) :
    socialLogin s p t = ⟨⟨404, none⟩, s, 0⟩ := by
  unfold socialLogin
  rw [h]
  rfl

theorem socialLogin_invalid (s : Store) (p t : String)
    (hp : enabledProviders.contains p = true)
    (ht : verify t = none) :
    socialLogin s p t = ⟨⟨401, none⟩, s, 1⟩ := by
  unfold socialLogin
  rw [hp, ht]
  rfl

theorem socialLogin_valid (s : Store) (p t : String) (info : UserInfo)
    (hp : enabledProviders.contains p = true)
    (ht : verify t = some info) :
    socialLogin s p t = ⟨⟨200, some (issueToken t)⟩, reconcile s info, 1⟩ := by
  unfold socialLogin
  rw [hp, ht]
  rfl

/-! ## Store-counting lemmas -/

theorem filter_email_nil_of_countEmail_zero (s : Store) (e : String)
    (h : countEmail s e = 0) :
    s.accounts.filter (fun a => a.email == e) = [] := by
  simpa [countEmail, List.length_eq_zero] using h

theorem any_email_of_countEmail_zero (s : Store) (e : String)
    (h : countEmail s e = 0) :
    s.accounts.any (fun a => a.email == e) = false := by
  have hf := filter_email_nil_of_countEmail_zero s e h
  rw [List.any_eq_false]
  intro a ha
  intro hae
  have : a ∈ s.accounts.filter (fun a => a.email == e) :=
    List.mem_filter.mpr ⟨ha, hae⟩
  simp [hf] at this

theorem any_email_of_countEmail_pos (s : Store) (e : String)
    (h : 0 < countEmail s e) :
    s.accounts.any (fun a => a.email == e) = true := by
  rw [List.any_eq_true]
  have : s.accounts.filter (fun a => a.email == e) ≠ [] := by
    intro hnil
    rw [countEmail, hnil] at h
    simp at h
  rcases List.exists_mem_of_ne_nil _ this with ⟨a, ha⟩
  rcases List.mem_filter.mp ha with ⟨hmem, hae⟩
  exact ⟨a, hmem, hae⟩

/-- Updating only the profile name of accounts with a given email preserves
the number of accounts carrying any email. -/
theorem length_filter_email_map (l : List UserAccount) (em n e : String) :
    ((l.map (fun a =>
        if a.email == em then ⟨a.username, a.email, n⟩ else a)).filter
      (fun a => a.email == e)).length
    = (l.filter (fun a => a.email == e)).length := by
  rw [← List.countP_eq_length_filter, ← List.countP_eq_length_filter,
    List.countP_map]
  refine List.countP_congr ?_
  intro a _
  by_cases hm : a.email == em <;> simp [Function.comp, hm]

/-- How `reconcile` changes the account count of an arbitrary email: nothing
when an account with the identity's email exists (profile update only),
otherwise one new account carrying the identity's email. -/
theorem countEmail_reconcile (s : Store) (info : UserInfo) (e : String) :
    countEmail (reconcile s info) e =
      if s.accounts.any (fun a => a.email == info.email) then countEmail s e
      else countEmail s e + (if info.email == e then 1 else 0) := by
  rcases hany : s.accounts.any (fun a => a.email == info.email) with _ | _
  · simp only [reconcile, hany, Bool.false_eq_true, if_false, countEmail,
      List.filter_append, List.length_append]
    by_cases he : info.email == e <;> simp [he]
  · simp only [reconcile, hany, if_true, countEmail]
    exact length_filter_email_map s.accounts info.email info.name e

/-! ## Concrete request URLs used as witnesses -/

/-- A request URL against the Google endpoint carrying the known-good token
`user_1`. -/
def exampleGoogleUrl : List Char :=
  "https://www.googleapis.com/plus/v1/people/me?access_token=user_1".data

/-- A request URL with a different path and extra query parameters but the
same `access_token` value as `exampleGoogleUrl`. -/
def exampleFacebookUrl : List Char :=
  "https://graph.facebook.com/v2.9/me?fields=id,name,email&access_token=user_1&locale=en".data

/-- A request URL whose `access_token` parameter has an empty value, which
`parse_qs` drops. -/
def exampleBlankTokenUrl : List Char :=
  "https://www.googleapis.com/plus/v1/people/me?access_token=".data

/-! ## Claims about the mock endpoint -/

/-- Claim C5: for every request reaching the mock provider endpoint whose URL
carries an `access_token` query parameter, `respond_to` returns status 200
with the corresponding user-info body exactly when the token is a key of
`USER_INFO`, and status 401 with the error body otherwise. -/
theorem C5_mock_contract (url t : List Char) (h : accessTokenOf url = some t) :
    (∀ info, USER_INFO.lookup (String.mk t) = some info →
      respond_to url = some ⟨200, [], Body.user info⟩) ∧
    (USER_INFO.lookup (String.mk t) = none →
      respond_to url = some ⟨401, [], Body.errors "Invalid Token"⟩) ∧
    ((∃ info, respond_to url = some ⟨200, [], Body.user info⟩) ↔
      (USER_INFO.lookup (String.mk t)).isSome) := by
  unfold respond_to
  rw [h]
  rcases hl : USER_INFO.lookup (String.mk t) with _ | info <;> simp [hl]

/-- Witness for C5 at the concrete URL `exampleGoogleUrl`, whose token
`user_1` is a `USER_INFO` key. -/
theorem C5_mock_contract_witness :
    accessTokenOf exampleGoogleUrl = some ("user_1".data) ∧
    ((∀ info, USER_INFO.lookup (String.mk ("user_1".data)) = some info →
      respond_to exampleGoogleUrl = some ⟨200, [], Body.user info⟩) ∧
    (USER_INFO.lookup (String.mk ("user_1".data)) = none →
      respond_to exampleGoogleUrl = some ⟨401, [], Body.errors "Invalid Token"⟩) ∧
    ((∃ info, respond_to exampleGoogleUrl = some ⟨200, [], Body.user info⟩) ↔
      (USER_INFO.lookup (String.mk ("user_1".data))).isSome)) :=
  ⟨by decide, C5_mock_contract exampleGoogleUrl ("user_1".data) (by decide)⟩

/-- Claim C9: the mock endpoint is a pure function of the `access_token`
query-parameter value: two request URLs extracting the same first
`access_token` value receive identical `(status, headers, body)` triples,
whatever their paths or other parameters; `respond_to` keeps no state across
requests. -/
theorem C9_mock_deterministic (u1 u2 : List Char)
    (h : accessTokenOf u1 = accessTokenOf u2) :
    respond_to u1 = respond_to u2 := by
  unfold respond_to
  rw [h]

/-- Witness for C9: a Google-shaped and a Facebook-shaped URL carrying the
same token value receive the same response. -/
theorem C9_mock_deterministic_witness :
    accessTokenOf exampleGoogleUrl = accessTokenOf exampleFacebookUrl ∧
    respond_to exampleGoogleUrl = respond_to exampleFacebookUrl :=
  ⟨by decide, C9_mock_deterministic exampleGoogleUrl exampleFacebookUrl (by decide)⟩

/-- Claim C10: `respond_to` fails (the Python code raises `KeyError`) exactly
when the request URL carries no `access_token` parameter; an empty-valued
`access_token=` is dropped by `parse_qs` and also fails, instead of producing
the 401 invalid-token response. -/
theorem C10_missing_token_keyerror :
    (∀ url : List Char, respond_to url = none ↔ accessTokenOf url = none) ∧
    accessTokenOf exampleBlankTokenUrl = none ∧
    respond_to exampleBlankTokenUrl = none := by
  refine ⟨fun url => ?_, by decide, by decide⟩
  unfold respond_to
  rcases accessTokenOf url with _ | t
  · simp
  · rcases hl : USER_INFO.lookup (String.mk t) <;> simp [hl]

/-- Counterexample to claim C6: `"00001"` is an external id in `USER_INFO`,
not one of its keys, so submitting it as the token is rejected: the mock
answers 401 and the login yields status 401 with no token and no account
created, not the success the claim states. -/
theorem C6_counterexample :
    USER_INFO.lookup "00001" = none ∧
    respond_to ("https://graph.facebook.com/v2.9/me?access_token=00001".data) =
      some ⟨401, [], Body.errors "Invalid Token"⟩ ∧
    socialLogin ⟨[]⟩ "facebook" "00001" = ⟨⟨401, none⟩, ⟨[]⟩, 1⟩ := by
  decide

/-- Claim C6 as amended: the token mapping to the identity
`{id: "00001", name: "Foo Bar", email: "foo@bar.com"}` is the `USER_INFO` key
`"user_1"`; submitting it to provider `facebook` succeeds, creates the account
with `username == "foo@bar.com"`, and returns a `token` field differing from
the submitted token. -/
theorem C6_amended_scenario :
    verify "user_1" = some ⟨"00001", "Foo Bar", "foo@bar.com"⟩ ∧
    respond_to ("https://graph.facebook.com/v2.9/me?access_token=user_1".data) =
      some ⟨200, [], Body.user ⟨"00001", "Foo Bar", "foo@bar.com"⟩⟩ ∧
    (socialLogin ⟨[]⟩ "facebook" "user_1").resp.status = 200 ∧
    (socialLogin ⟨[]⟩ "facebook" "user_1").store.accounts =
      [⟨"foo@bar.com", "foo@bar.com", "Foo Bar"⟩] ∧
    (socialLogin ⟨[]⟩ "facebook" "user_1").resp.token = some "drf-user_1" ∧
    "drf-user_1" ≠ "user_1" := by
  decide

/-! ## Claims about the modelled login pipeline -/

theorem issueToken_ne (t : String) : issueToken t ≠ t := by
  intro h
  have hlen := congrArg String.length h
  have h4 : ("drf-" : String).length = 4 := rfl
  rw [issueToken, String.length_append, h4] at hlen
  omega

/-- Claim C1: a login attempt against any provider outside the enabled set
returns the 404 outcome, leaves the store untouched and performs zero
outbound network calls. -/
theorem C1_unknown_provider (s : Store) (provider token : String)
    (h : enabledProviders.contains provider = false) :
    socialLogin s provider token = ⟨⟨404, none⟩, s, 0⟩ := by
  unfold socialLogin
  rw [h]
  simp

/-- Witness for C1: provider `yahoo` with an otherwise-valid token. -/
theorem C1_unknown_provider_witness :
    enabledProviders.contains "yahoo" = false ∧
    socialLogin ⟨[]⟩ "yahoo" "user_1" = ⟨⟨404, none⟩, ⟨[]⟩, 0⟩ :=
  ⟨by decide, C1_unknown_provider ⟨[]⟩ "yahoo" "user_1" (by decide)⟩

/-- Claim C2: a first-time login (no account with the token's email yet) with
a known-good token of an enabled provider succeeds with a 2xx status, leaves
exactly one account with that email — whose username equals the email — and
returns a local token differing from the submitted one. -/
theorem C2_first_login (s : Store) (p t : String) (info : UserInfo)
    (hp : enabledProviders.contains p = true)
    (ht : USER_INFO.lookup t = some info)
    (h0 : countEmail s info.email = 0) :
    (socialLogin s p t).resp.status / 100 = 2 ∧
    (socialLogin s p t).store.accounts.filter (fun a => a.email == info.email)
      = [⟨info.email, info.email, info.name⟩] ∧
    (∃ tok, (socialLogin s p t).resp.token = some tok ∧ tok ≠ t) := by
  have hany := any_email_of_countEmail_zero s info.email h0
  have hnil := filter_email_nil_of_countEmail_zero s info.email h0
  simp only [socialLogin, hp, if_true, verify, ht]
  refine ⟨by norm_num, ?_, ⟨issueToken t, rfl, issueToken_ne t⟩⟩
  simp [reconcile, hany, List.filter_append, hnil]

/-- Witness for C2: token `user_1` on provider `facebook` against the empty
store. -/
theorem C2_first_login_witness :
    enabledProviders.contains "facebook" = true ∧
    USER_INFO.lookup "user_1" = some ⟨"00001", "Foo Bar", "foo@bar.com"⟩ ∧
    countEmail ⟨[]⟩ (UserInfo.email ⟨"00001", "Foo Bar", "foo@bar.com"⟩) = 0 ∧
    ((socialLogin ⟨[]⟩ "facebook" "user_1").resp.status / 100 = 2 ∧
    (socialLogin ⟨[]⟩ "facebook" "user_1").store.accounts.filter
        (fun a => a.email == UserInfo.email ⟨"00001", "Foo Bar", "foo@bar.com"⟩)
      = [⟨"foo@bar.com", "foo@bar.com", "Foo Bar"⟩] ∧
    (∃ tok, (socialLogin ⟨[]⟩ "facebook" "user_1").resp.token = some tok ∧
      tok ≠ "user_1")) :=
  ⟨by decide, by decide, by decide,
    C2_first_login ⟨[]⟩ "facebook" "user_1" ⟨"00001", "Foo Bar", "foo@bar.com"⟩
      (by decide) (by decide) (by decide)⟩

/-- Claim C3: a login attempt against an enabled provider with a token outside
the known-good set is rejected with a 4xx status, carries no `token` field,
and leaves the account store exactly as it was. -/
theorem C3_invalid_token (s : Store) (p t : String)
    (hp : enabledProviders.contains p = true)
    (ht : USER_INFO.lookup t = none) :
    (socialLogin s p t).resp.status / 100 = 4 ∧
    (socialLogin s p t).resp.token = none ∧
    (socialLogin s p t).store = s := by
  unfold socialLogin verify
  rw [hp, ht]
  simp

/-- Witness for C3: token `invalid_token` on provider `facebook` against a
non-empty store. -/
theorem C3_invalid_token_witness :
    enabledProviders.contains "facebook" = true ∧
    USER_INFO.lookup "invalid_token" = none ∧
    ((socialLogin ⟨[⟨"foo@bar.com", "foo@bar.com", "Foo Bar"⟩]⟩ "facebook"
        "invalid_token").resp.status / 100 = 4 ∧
    (socialLogin ⟨[⟨"foo@bar.com", "foo@bar.com", "Foo Bar"⟩]⟩ "facebook"
        "invalid_token").resp.token = none ∧
    (socialLogin ⟨[⟨"foo@bar.com", "foo@bar.com", "Foo Bar"⟩]⟩ "facebook"
        "invalid_token").store = ⟨[⟨"foo@bar.com", "foo@bar.com", "Foo Bar"⟩]⟩) :=
  ⟨by decide, by decide,
    C3_invalid_token ⟨[⟨"foo@bar.com", "foo@bar.com", "Foo Bar"⟩]⟩ "facebook"
      "invalid_token" (by decide) (by decide)⟩

theorem countEmail_zero_of_any_false (s : Store) (e : String)
    (h : s.accounts.any (fun a => a.email == e) = false) :
    countEmail s e = 0 := by
  by_contra hne
  have hpos : 0 < countEmail s e := Nat.pos_of_ne_zero hne
  rw [any_email_of_countEmail_pos s e hpos] at h
  cases h

/-- Reconciling an identity whose email already has an account in the store
changes no account count at all. -/
theorem countEmail_reconcile_of_pos (s : Store) (info : UserInfo) (e : String)
    (hpos : 0 < countEmail s info.email) :
    countEmail (reconcile s info) e = countEmail s e := by
  rw [countEmail_reconcile, any_email_of_countEmail_pos s info.email hpos]
  simp

theorem reconcile_existing (s : Store) (info : UserInfo)
    (h : s.accounts.any (fun a => a.email == info.email) = true) :
    reconcile s info = ⟨s.accounts.map (fun a =>
      if a.email == info.email then ⟨a.username, a.email, info.name⟩ else a)⟩ := by
  unfold reconcile
  rw [h]
  rfl

/-- Claim C4: after a successful login, a further successful login with any
valid token mapping to the same email keeps exactly one account with that
email and touches only the profile (name) field of the existing accounts. -/
theorem C4_repeat_login_idempotent (s0 : Store) (p p' t t' : String)
    (info info' : UserInfo)
    (hp : enabledProviders.contains p = true)
    (hp' : enabledProviders.contains p' = true)
    (ht : USER_INFO.lookup t = some info)
    (ht' : USER_INFO.lookup t' = some info')
    (he : info'.email = info.email)
    (h0 : countEmail s0 info.email = 0) :
    countEmail (socialLogin s0 p t).store info.email = 1 ∧
    countEmail (socialLogin (socialLogin s0 p t).store p' t').store
      info.email = 1 ∧
    (socialLogin (socialLogin s0 p t).store p' t').store.accounts =
      (socialLogin s0 p t).store.accounts.map
        (fun a => if a.email == info.email then ⟨a.username, a.email, info'.name⟩
          else a) := by
  have hany0 := any_email_of_countEmail_zero s0 info.email h0
  have hs1 : (socialLogin s0 p t).store = reconcile s0 info := by
    rw [socialLogin_valid s0 p t info hp ht]
  have hcount1 : countEmail (reconcile s0 info) info.email = 1 := by
    rw [countEmail_reconcile, hany0]
    simp [h0]
  have hpos1 : 0 < countEmail (reconcile s0 info) info'.email := by
    rw [he, hcount1]
    norm_num
  have hany1 : (reconcile s0 info).accounts.any
      (fun a => a.email == info'.email) = true :=
    any_email_of_countEmail_pos _ _ hpos1
  have hs2 : (socialLogin (reconcile s0 info) p' t').store =
      reconcile (reconcile s0 info) info' := by
    rw [socialLogin_valid (reconcile s0 info) p' t' info' hp' ht']
  refine ⟨?_, ?_, ?_⟩
  · rw [hs1]
    exact hcount1
  · rw [hs1, hs2, countEmail_reconcile_of_pos _ _ _ hpos1]
    exact hcount1
  · rw [hs1, hs2, reconcile_existing _ _ hany1, he]

/-- Witness for C4: logging in twice with token `user_1` on provider
`facebook`, starting from the empty store. -/
theorem C4_repeat_login_idempotent_witness :
    countEmail ⟨[]⟩ (UserInfo.email ⟨"00001", "Foo Bar", "foo@bar.com"⟩) = 0 ∧
    (countEmail (socialLogin ⟨[]⟩ "facebook" "user_1").store
        (UserInfo.email ⟨"00001", "Foo Bar", "foo@bar.com"⟩) = 1 ∧
    countEmail (socialLogin (socialLogin ⟨[]⟩ "facebook" "user_1").store
        "google-oauth2" "user_1").store
        (UserInfo.email ⟨"00001", "Foo Bar", "foo@bar.com"⟩) = 1 ∧
    (socialLogin (socialLogin ⟨[]⟩ "facebook" "user_1").store
        "google-oauth2" "user_1").store.accounts =
      (socialLogin ⟨[]⟩ "facebook" "user_1").store.accounts.map
        (fun a => if a.email == UserInfo.email ⟨"00001", "Foo Bar", "foo@bar.com"⟩
          then ⟨a.username, a.email, UserInfo.name ⟨"00001", "Foo Bar", "foo@bar.com"⟩⟩
          else a)) :=
  ⟨by decide,
    C4_repeat_login_idempotent ⟨[]⟩ "facebook" "google-oauth2" "user_1" "user_1"
      ⟨"00001", "Foo Bar", "foo@bar.com"⟩ ⟨"00001", "Foo Bar", "foo@bar.com"⟩
      (by decide) (by decide) (by decide) (by decide) rfl (by decide)⟩

/-! ## Sequenced logins (C8) -/

theorem countEmail_socialLogin_of_one (s : Store) (p t e : String)
    (h : countEmail s e = 1) :
    countEmail (socialLogin s p t).store e = 1 := by
  rcases hc : enabledProviders.contains p with _ | _
  · rw [socialLogin_not_enabled s p t hc]
    exact h
  · rcases hv : verify t with _ | info
    · rw [socialLogin_invalid s p t hc hv]
      exact h
    · rw [socialLogin_valid s p t info hc hv]
      show countEmail (reconcile s info) e = 1
      rcases Nat.eq_zero_or_pos (countEmail s info.email) with hz | hpos
      · have hanyf := any_email_of_countEmail_zero s info.email hz
        rw [countEmail_reconcile, hanyf]
        have hne : (info.email == e) = false := by
          rcases hbe : info.email == e with _ | _
          · rfl
          · exfalso
            have : info.email = e := by simpa using hbe
            rw [this] at hz
            omega
        simp [hne, h]
      · rw [countEmail_reconcile_of_pos s info e hpos]
        exact h

theorem countEmail_socialLogin_le_one (s : Store) (p t e : String)
    (h : countEmail s e ≤ 1) :
    countEmail (socialLogin s p t).store e ≤ 1 := by
  rcases hc : enabledProviders.contains p with _ | _
  · rw [socialLogin_not_enabled s p t hc]
    exact h
  · rcases hv : verify t with _ | info
    · rw [socialLogin_invalid s p t hc hv]
      exact h
    · rw [socialLogin_valid s p t info hc hv]
      show countEmail (reconcile s info) e ≤ 1
      rw [countEmail_reconcile]
      rcases hany : s.accounts.any (fun a => a.email == info.email) with _ | _
      · have hz := countEmail_zero_of_any_false s info.email hany
        rcases hbe : info.email == e with _ | _
        · simp [h]
        · have hee : info.email = e := by simpa using hbe
          rw [← hee, hz]
          simp
      · simpa using h

theorem countEmail_socialLogin_first (s : Store) (p t e : String)
    (info : UserInfo)
    (hp : enabledProviders.contains p = true)
    (ht : USER_INFO.lookup t = some info)
    (hme : info.email = e)
    (h0 : countEmail s e = 0) :
    countEmail (socialLogin s p t).store e = 1 := by
  rw [socialLogin_valid s p t info hp ht]
  show countEmail (reconcile s info) e = 1
  rw [countEmail_reconcile, hme, any_email_of_countEmail_zero s e h0]
  simp [h0]

theorem countEmail_foldl_of_one (ts : List String) (p e : String) (s : Store)
    (h : countEmail s e = 1) :
    countEmail (ts.foldl (fun s t => (socialLogin s p t).store) s) e = 1 := by
  induction ts generalizing s with
  | nil => exact h
  | cons t ts ih => exact ih _ (countEmail_socialLogin_of_one s p t e h)

theorem countEmail_foldl_le_one (ts : List String) (p e : String) (s : Store)
    (h : countEmail s e ≤ 1) :
    countEmail (ts.foldl (fun s t => (socialLogin s p t).store) s) e ≤ 1 := by
  induction ts generalizing s with
  | nil => exact h
  | cons t ts ih => exact ih _ (countEmail_socialLogin_le_one s p t e h)

/-- Claim C8: any number of first-time logins with valid tokens mapping to
the same email, executed in any order (the reconciler's find-or-create is
serialized per email, so every concurrent execution is equivalent to some
sequential order), leave exactly one account with that email; along the whole
execution the store never holds more than one account with it. -/
theorem C8_concurrent_same_email (tokens : List String) (p e : String)
    (s0 : Store)
    (hne : tokens ≠ [])
    (hall : ∀ t ∈ tokens, ∃ info, USER_INFO.lookup t = some info ∧
      info.email = e)
    (hp : enabledProviders.contains p = true)
    (h0 : countEmail s0 e = 0) :
    countEmail (tokens.foldl (fun s t => (socialLogin s p t).store) s0) e = 1 ∧
    ∀ n : Nat, countEmail ((tokens.take n).foldl
      (fun s t => (socialLogin s p t).store) s0) e ≤ 1 := by
  constructor
  · rcases tokens with _ | ⟨t, ts⟩
    · exact absurd rfl hne
    · rcases hall t (List.mem_cons_self t ts) with ⟨info, ht, hme⟩
      exact countEmail_foldl_of_one ts p e _
        (countEmail_socialLogin_first s0 p t e info hp ht hme h0)
  · intro n
    exact countEmail_foldl_le_one _ p e s0 (by omega)

/-- Witness for C8: two sequenced logins with token `user_1` on `facebook`
from the empty store. -/
theorem C8_concurrent_same_email_witness :
    (["user_1", "user_1"] : List String) ≠ [] ∧
    countEmail ⟨[]⟩ "foo@bar.com" = 0 ∧
    (countEmail ((["user_1", "user_1"] : List String).foldl
        (fun s t => (socialLogin s "facebook" t).store) ⟨[]⟩) "foo@bar.com" = 1 ∧
    ∀ n : Nat, countEmail (((["user_1", "user_1"] : List String).take n).foldl
        (fun s t => (socialLogin s "facebook" t).store) ⟨[]⟩) "foo@bar.com" ≤ 1) :=
  ⟨by decide, by decide,
    C8_concurrent_same_email ["user_1", "user_1"] "facebook" "foo@bar.com" ⟨[]⟩
      (by decide)
      (by
        intro t ht
        have heq : t = "user_1" := by simpa using ht
        subst heq
        exact ⟨⟨"00001", "Foo Bar", "foo@bar.com"⟩, by decide, rfl⟩)
      (by decide) (by decide)⟩

/-! ## Language membership for the mock URL pattern (C7) -/

theorem mem_charClass (cs : List Char) (c : Char) (h : c ∈ cs) :
    [c] ∈ (charClass cs).matches' := by
  induction cs with
  | nil => cases h
  | cons d ds ih =>
    show [c] ∈ (RegularExpression.char d + charClass ds).matches'
    rw [RegularExpression.matches'_add]
    rcases List.mem_cons.mp h with rfl | hmem
    · exact (Language.mem_add _ _ _).mpr (Or.inl (by
        rw [RegularExpression.matches'_char]
        rfl))
    · exact (Language.mem_add _ _ _).mpr (Or.inr (ih hmem))

theorem mem_litRe (s : List Char) : s ∈ (litRe s).matches' := by
  induction s with
  | nil =>
    show [] ∈ (1 : RegularExpression Char).matches'
    rw [RegularExpression.matches'_epsilon]
    exact Language.nil_mem_one
  | cons c cs ih =>
    show (c :: cs) ∈ (RegularExpression.char c * litRe cs).matches'
    rw [RegularExpression.matches'_mul]
    show [c] ++ cs ∈ _
    exact Language.append_mem_mul (by rw [RegularExpression.matches'_char]; rfl) ih

theorem mem_wh_star (v : List Char) (h : ∀ c ∈ v, c ∈ wordHyphenChars) :
    v ∈ wh.star.matches' := by
  rw [RegularExpression.matches'_star]
  have hv : v = (v.map (fun c => [c])).flatten := by
    clear h
    induction v with
    | nil => rfl
    | cons c cs ih => simp [← ih]
  rw [hv]
  refine Language.join_mem_kstar ?_
  intro y hy
  rcases List.mem_map.mp hy with ⟨c, hc, rfl⟩
  exact mem_charClass wordHyphenChars c (h c hc)

theorem mem_whPlus (k : List Char) (hne : k ≠ [])
    (h : ∀ c ∈ k, c ∈ wordHyphenChars) :
    k ∈ whPlus.matches' := by
  rcases k with _ | ⟨c, cs⟩
  · exact absurd rfl hne
  · rw [whPlus, RegularExpression.matches'_mul]
    show [c] ++ cs ∈ _
    refine Language.append_mem_mul
      (mem_charClass wordHyphenChars c (h c (List.mem_cons_self c cs))) ?_
    exact mem_wh_star cs (fun d hd => h d (List.mem_cons_of_mem c hd))

theorem mem_pairRe (k v : List Char) (hk : k ≠ [])
    (hkc : ∀ c ∈ k, c ∈ wordHyphenChars)
    (hvc : ∀ c ∈ v, c ∈ wordHyphenChars) :
    (k ++ '=' :: v) ∈ pairRe.matches' := by
  rw [pairRe, RegularExpression.matches'_mul]
  refine Language.append_mem_mul (mem_whPlus k hk hkc) ?_
  rw [valOpt, RegularExpression.matches'_add]
  refine (Language.mem_add _ _ _).mpr (Or.inl ?_)
  rw [RegularExpression.matches'_mul]
  show ['='] ++ v ∈ _
  exact Language.append_mem_mul (by rw [RegularExpression.matches'_char]; rfl)
    (mem_wh_star v hvc)

theorem intercalate_amp_eq (x : List Char) (xs : List (List Char)) :
    List.intercalate ['&'] (x :: xs)
      = x ++ (xs.map (fun y => '&' :: y)).flatten := by
  induction xs generalizing x with
  | nil => simp [List.intercalate]
  | cons y ys ih =>
    simp only [List.intercalate, List.intersperse] at ih ⊢
    simp [ih]

/-- Claim C7: the mock interceptor's pattern — the provider's user-info
endpoint URL followed by `QUERY_STRINGS_RE` — matches the endpoint URL
followed by any query string built from `key=value` pairs of word characters
and hyphens, for any number of pairs (it covers both `TestFacebook.mock_url`
and `TestGoogle.mock_url`, which differ only in the base URL). -/
theorem C7_mock_url_matches (base : List Char)
    (ps : List (List Char × List Char))
    (h : ∀ p ∈ ps, p.1 ≠ [] ∧ (∀ c ∈ p.1, c ∈ wordHyphenChars) ∧
      (∀ c ∈ p.2, c ∈ wordHyphenChars)) :
    (base ++ queryOfPairs ps) ∈ (mock_url base).matches' := by
  rw [mock_url, RegularExpression.matches'_mul]
  refine Language.append_mem_mul (mem_litRe base) ?_
  rw [QUERY_STRINGS_RE, RegularExpression.matches'_mul]
  show ['?'] ++ List.intercalate ['&'] (ps.map (fun p => p.1 ++ '=' :: p.2)) ∈ _
  refine Language.append_mem_mul (by rw [RegularExpression.matches'_char]; rfl) ?_
  rw [RegularExpression.matches'_add]
  rcases ps with _ | ⟨p, rest⟩
  · refine (Language.mem_add _ _ _).mpr (Or.inr ?_)
    show ([] : List Char) ∈ (1 : RegularExpression Char).matches'
    rw [RegularExpression.matches'_epsilon]
    exact Language.nil_mem_one
  · refine (Language.mem_add _ _ _).mpr (Or.inl ?_)
    rw [RegularExpression.matches'_mul, List.map_cons, intercalate_amp_eq]
    rcases h p (List.mem_cons_self p rest) with ⟨h1, h2, h3⟩
    refine Language.append_mem_mul (mem_pairRe p.1 p.2 h1 h2 h3) ?_
    rw [RegularExpression.matches'_star, List.map_map]
    refine Language.join_mem_kstar ?_
    intro y hy
    rcases List.mem_map.mp hy with ⟨q, hq_mem, rfl⟩
    show '&' :: (q.1 ++ '=' :: q.2) ∈
      (RegularExpression.char '&' * pairRe).matches'
    rw [RegularExpression.matches'_mul]
    show ['&'] ++ (q.1 ++ '=' :: q.2) ∈ _
    rcases h q (List.mem_cons_of_mem p hq_mem) with ⟨h1', h2', h3'⟩
    exact Language.append_mem_mul (by rw [RegularExpression.matches'_char]; rfl)
      (mem_pairRe q.1 q.2 h1' h2' h3')

/-- Witness for C7: the Google base URL with the single pair
`access_token=user_1`. -/
theorem C7_mock_url_matches_witness :
    (∀ p ∈ ([("access_token".data, "user_1".data)] :
        List (List Char × List Char)),
      p.1 ≠ [] ∧ (∀ c ∈ p.1, c ∈ wordHyphenChars) ∧
      (∀ c ∈ p.2, c ∈ wordHyphenChars)) ∧
    (googleBaseUrl ++ queryOfPairs [("access_token".data, "user_1".data)]) ∈
      (mock_url googleBaseUrl).matches' :=
  ⟨by decide,
    C7_mock_url_matches googleBaseUrl [("access_token".data, "user_1".data)]
      (by decide)⟩

end OAuth2Article
